import Mathlib

/-!
# Verification of the gohubbub PubSubHubbub subscriber client

A shallow embedding of `gohubbub.go` (package `gohubbub`): the subscription
registry, the callback handler state machine, secret-key derivation
(HMAC-SHA1), signature verification (HMAC with sha1/sha256/sha384/sha512),
the deduplication ring buffer, and the renewal scan.  Hash functions are
implemented executably over byte lists so that concrete callbacks can be
evaluated inside proofs.
-/

set_option maxRecDepth 100000

namespace Gohubbub

/-- Bytes are lists of naturals; each element is intended to lie below 256. -/
abbrev Bytes := List Nat

/-! ## 32-bit and 64-bit word arithmetic over `Nat` -/

def M32 : Nat := 4294967296
def M64 : Nat := 18446744073709551616

def rotl32 (x n : Nat) : Nat := ((x <<< n) ||| (x >>> (32 - n))) % M32
def rotr32 (x n : Nat) : Nat := ((x >>> n) ||| (x <<< (32 - n))) % M32
def rotr64 (x n : Nat) : Nat := ((x >>> n) ||| (x <<< (64 - n))) % M64
def not32 (x : Nat) : Nat := x ^^^ (M32 - 1)
def not64 (x : Nat) : Nat := x ^^^ (M64 - 1)

/-- Big-endian word from bytes. -/
def beWord (bs : Bytes) : Nat := bs.foldl (fun a b => a * 256 + b) 0

/-- Little-endian word from bytes. -/
def leWord (bs : Bytes) : Nat := bs.foldr (fun b a => a * 256 + b) 0

/-- `k` big-endian bytes of `n`. -/
def beBytes (k n : Nat) : Bytes := (List.range k).map (fun i => (n >>> (8 * (k - 1 - i))) % 256)

/-- `k` little-endian bytes of `n`. -/
def leBytes (k n : Nat) : Bytes := (List.range k).map (fun i => (n >>> (8 * i)) % 256)

/-- Split a list into consecutive chunks of `n` elements (dropping any
incomplete tail chunk; inputs are always padded to a multiple of `n`). -/
def chunksOf (n : Nat) (l : Bytes) : List Bytes :=
  (List.range (l.length / n)).map (fun i => (l.drop (n * i)).take n)

/-- Number of zero padding bytes for Merkle–Damgård padding: after the 0x80
byte and before the `lenLen`-byte length field, the total must be a multiple
of `blockLen`. -/
def padZeros (len blockLen lenLen : Nat) : Nat :=
  (blockLen - (len + 1 + lenLen) % blockLen) % blockLen

/-! ## MD5 (RFC 1321) -/

def md5K : List Nat :=
  [3614090360, 3905402710, 606105819, 3250441966, 4118548399,
   1200080426, 2821735955, 4249261313, 1770035416, 2336552879,
   4294925233, 2304563134, 1804603682, 4254626195, 2792965006,
   1236535329, 4129170786, 3225465664, 643717713, 3921069994,
   3593408605, 38016083, 3634488961, 3889429448, 568446438,
   3275163606, 4107603335, 1163531501, 2850285829, 4243563512,
   1735328473, 2368359562, 4294588738, 2272392833, 1839030562,
   4259657740, 2763975236, 1272893353, 4139469664, 3200236656,
   681279174, 3936430074, 3572445317, 76029189, 3654602809,
   3873151461, 530742520, 3299628645, 4096336452, 1126891415,
   2878612391, 4237533241, 1700485571, 2399980690, 4293915773,
   2240044497, 1873313359, 4264355552, 2734768916, 1309151649,
   4149444226, 3174756917, 718787259, 3951481745]

def md5S : List Nat :=
  [7, 12, 17, 22, 7, 12, 17, 22, 7, 12, 17, 22, 7, 12, 17, 22,
   5, 9, 14, 20, 5, 9, 14, 20, 5, 9, 14, 20, 5, 9, 14, 20,
   4, 11, 16, 23, 4, 11, 16, 23, 4, 11, 16, 23, 4, 11, 16, 23,
   6, 10, 15, 21, 6, 10, 15, 21, 6, 10, 15, 21, 6, 10, 15, 21]

def md5F (i b c d : Nat) : Nat :=
  if i < 16 then (b &&& c) ||| (not32 b &&& d)
  else if i < 32 then (d &&& b) ||| (not32 d &&& c)
  else if i < 48 then b ^^^ c ^^^ d
  else c ^^^ (b ||| not32 d)

def md5G (i : Nat) : Nat :=
  if i < 16 then i
  else if i < 32 then (5 * i + 1) % 16
  else if i < 48 then (3 * i + 5) % 16
  else (7 * i) % 16

def md5Block (st : Nat × Nat × Nat × Nat) (ws : List Nat) : Nat × Nat × Nat × Nat :=
  let step := fun (s : Nat × Nat × Nat × Nat) (i : Nat) =>
    let (a, b, c, d) := s
    let t := (md5F i b c d + a + md5K.getD i 0 + ws.getD (md5G i) 0) % M32
    (d, (b + rotl32 t (md5S.getD i 0)) % M32, b, c)
  let (a0, b0, c0, d0) := st
  let (a, b, c, d) := (List.range 64).foldl step st
  ((a0 + a) % M32, (b0 + b) % M32, (c0 + c) % M32, (d0 + d) % M32)

def mdPad (msg : Bytes) : Bytes :=
  msg ++ [128] ++ List.replicate (padZeros msg.length 64 8) 0 ++ leBytes 8 (8 * msg.length)

/-- MD5 digest (16 bytes). -/
def md5 (msg : Bytes) : Bytes :=
  let blocks := (chunksOf 64 (mdPad msg)).map (fun b => (chunksOf 4 b).map leWord)
  let (a, b, c, d) := blocks.foldl md5Block (1732584193, 4023233417, 2562383102, 271733878)
  leBytes 4 a ++ leBytes 4 b ++ leBytes 4 c ++ leBytes 4 d

/-! ## SHA-1 (FIPS 180-4) -/

def sha1Schedule (ws : List Nat) : List Nat :=
  (List.range 80).foldl (fun acc i =>
    acc ++ [if i < 16 then ws.getD i 0
            else rotl32 ((acc.getD (i - 3) 0) ^^^ (acc.getD (i - 8) 0) ^^^
                         (acc.getD (i - 14) 0) ^^^ (acc.getD (i - 16) 0)) 1]) []

def sha1F (i b c d : Nat) : Nat :=
  if i < 20 then (b &&& c) ||| (not32 b &&& d)
  else if i < 40 then b ^^^ c ^^^ d
  else if i < 60 then (b &&& c) ||| (b &&& d) ||| (c &&& d)
  else b ^^^ c ^^^ d

def sha1KC (i : Nat) : Nat :=
  if i < 20 then 1518500249
  else if i < 40 then 1859775393
  else if i < 60 then 2400959708
  else 3395469782

def sha1Block (st : Nat × Nat × Nat × Nat × Nat) (ws : List Nat) :
    Nat × Nat × Nat × Nat × Nat :=
  let w := sha1Schedule ws
  let step := fun (s : Nat × Nat × Nat × Nat × Nat) (i : Nat) =>
    let (a, b, c, d, e) := s
    ((rotl32 a 5 + sha1F i b c d + e + sha1KC i + w.getD i 0) % M32,
     a, rotl32 b 30, c, d)
  let (h0, h1, h2, h3, h4) := st
  let (a, b, c, d, e) := (List.range 80).foldl step st
  ((h0 + a) % M32, (h1 + b) % M32, (h2 + c) % M32, (h3 + d) % M32, (h4 + e) % M32)

def shaPad (msg : Bytes) : Bytes :=
  msg ++ [128] ++ List.replicate (padZeros msg.length 64 8) 0 ++ beBytes 8 (8 * msg.length)

/-- SHA-1 digest (20 bytes). -/
def sha1 (msg : Bytes) : Bytes :=
  let blocks := (chunksOf 64 (shaPad msg)).map (fun b => (chunksOf 4 b).map beWord)
  let (a, b, c, d, e) := blocks.foldl sha1Block
    (1732584193, 4023233417, 2562383102, 271733878, 3285377520)
  beBytes 4 a ++ beBytes 4 b ++ beBytes 4 c ++ beBytes 4 d ++ beBytes 4 e

/-! ## SHA-256 (FIPS 180-4) -/

def sha256K : List Nat :=
  [1116352408, 1899447441, 3049323471, 3921009573, 961987163,
   1508970993, 2453635748, 2870763221, 3624381080, 310598401,
   607225278, 1426881987, 1925078388, 2162078206, 2614888103,
   3248222580, 3835390401, 4022224774, 264347078, 604807628,
   770255983, 1249150122, 1555081692, 1996064986, 2554220882,
   2821834349, 2952996808, 3210313671, 3336571891, 3584528711,
   113926993, 338241895, 666307205, 773529912, 1294757372,
   1396182291, 1695183700, 1986661051, 2177026350, 2456956037,
   2730485921, 2820302411, 3259730800, 3345764771, 3516065817,
   3600352804, 4094571909, 275423344, 430227734, 506948616,
   659060556, 883997877, 958139571, 1322822218, 1537002063,
   1747873779, 1955562222, 2024104815, 2227730452, 2361852424,
   2428436474, 2756734187, 3204031479, 3329325298]

def sha256Schedule (ws : List Nat) : List Nat :=
  (List.range 64).foldl (fun acc i =>
    acc ++ [if i < 16 then ws.getD i 0
            else
              let x15 := acc.getD (i - 15) 0
              let x2 := acc.getD (i - 2) 0
              let s0 := rotr32 x15 7 ^^^ rotr32 x15 18 ^^^ (x15 >>> 3)
              let s1 := rotr32 x2 17 ^^^ rotr32 x2 19 ^^^ (x2 >>> 10)
              (acc.getD (i - 16) 0 + s0 + acc.getD (i - 7) 0 + s1) % M32]) []

abbrev St8 := Nat × Nat × Nat × Nat × Nat × Nat × Nat × Nat

def sha256Block (st : St8) (ws : List Nat) : St8 :=
  let w := sha256Schedule ws
  let step := fun (s : St8) (i : Nat) =>
    let (a, b, c, d, e, f, g, h) := s
    let S1 := rotr32 e 6 ^^^ rotr32 e 11 ^^^ rotr32 e 25
    let ch := (e &&& f) ^^^ (not32 e &&& g)
    let t1 := (h + S1 + ch + sha256K.getD i 0 + w.getD i 0) % M32
    let S0 := rotr32 a 2 ^^^ rotr32 a 13 ^^^ rotr32 a 22
    let maj := (a &&& b) ^^^ (a &&& c) ^^^ (b &&& c)
    let t2 := (S0 + maj) % M32
    ((t1 + t2) % M32, a, b, c, (d + t1) % M32, e, f, g)
  let (a0, b0, c0, d0, e0, f0, g0, h0) := st
  let (a, b, c, d, e, f, g, h) := (List.range 64).foldl step st
  ((a0 + a) % M32, (b0 + b) % M32, (c0 + c) % M32, (d0 + d) % M32,
   (e0 + e) % M32, (f0 + f) % M32, (g0 + g) % M32, (h0 + h) % M32)

/-- SHA-256 digest (32 bytes). -/
def sha256 (msg : Bytes) : Bytes :=
  let blocks := (chunksOf 64 (shaPad msg)).map (fun b => (chunksOf 4 b).map beWord)
  let (a, b, c, d, e, f, g, h) := blocks.foldl sha256Block
    (1779033703, 3144134277, 1013904242, 2773480762,
     1359893119, 2600822924, 528734635, 1541459225)
  beBytes 4 a ++ beBytes 4 b ++ beBytes 4 c ++ beBytes 4 d ++
  beBytes 4 e ++ beBytes 4 f ++ beBytes 4 g ++ beBytes 4 h

/-! ## SHA-512 and SHA-384 (FIPS 180-4) -/

def sha512K : List Nat :=
  [4794697086780616226, 8158064640168781261, 13096744586834688815,
   16840607885511220156, 4131703408338449720, 6480981068601479193,
   10538285296894168987, 12329834152419229976, 15566598209576043074,
   1334009975649890238, 2608012711638119052, 6128411473006802146,
   8268148722764581231, 9286055187155687089, 11230858885718282805,
   13951009754708518548, 16472876342353939154, 17275323862435702243,
   1135362057144423861, 2597628984639134821, 3308224258029322869,
   5365058923640841347, 6679025012923562964, 8573033837759648693,
   10970295158949994411, 12119686244451234320, 12683024718118986047,
   13788192230050041572, 14330467153632333762, 15395433587784984357,
   489312712824947311, 1452737877330783856, 2861767655752347644,
   3322285676063803686, 5560940570517711597, 5996557281743188959,
   7280758554555802590, 8532644243296465576, 9350256976987008742,
   10552545826968843579, 11727347734174303076, 12113106623233404929,
   14000437183269869457, 14369950271660146224, 15101387698204529176,
   15463397548674623760, 17586052441742319658, 1182934255886127544,
   1847814050463011016, 2177327727835720531, 2830643537854262169,
   3796741975233480872, 4115178125766777443, 5681478168544905931,
   6601373596472566643, 7507060721942968483, 8399075790359081724,
   8693463985226723168, 9568029438360202098, 10144078919501101548,
   10430055236837252648, 11840083180663258601, 13761210420658862357,
   14299343276471374635, 14566680578165727644, 15097957966210449927,
   16922976911328602910, 17689382322260857208, 500013540394364858,
   748580250866718886, 1242879168328830382, 1977374033974150939,
   2944078676154940804, 3659926193048069267, 4368137639120453308,
   4836135668995329356, 5532061633213252278, 6448918945643986474,
   6902733635092675308, 7801388544844847127]

def sha512Schedule (ws : List Nat) : List Nat :=
  (List.range 80).foldl (fun acc i =>
    acc ++ [if i < 16 then ws.getD i 0
            else
              let x15 := acc.getD (i - 15) 0
              let x2 := acc.getD (i - 2) 0
              let s0 := rotr64 x15 1 ^^^ rotr64 x15 8 ^^^ (x15 >>> 7)
              let s1 := rotr64 x2 19 ^^^ rotr64 x2 61 ^^^ (x2 >>> 6)
              (acc.getD (i - 16) 0 + s0 + acc.getD (i - 7) 0 + s1) % M64]) []

def sha512Block (st : St8) (ws : List Nat) : St8 :=
  let w := sha512Schedule ws
  let step := fun (s : St8) (i : Nat) =>
    let (a, b, c, d, e, f, g, h) := s
    let S1 := rotr64 e 14 ^^^ rotr64 e 18 ^^^ rotr64 e 41
    let ch := (e &&& f) ^^^ (not64 e &&& g)
    let t1 := (h + S1 + ch + sha512K.getD i 0 + w.getD i 0) % M64
    let S0 := rotr64 a 28 ^^^ rotr64 a 34 ^^^ rotr64 a 39
    let maj := (a &&& b) ^^^ (a &&& c) ^^^ (b &&& c)
    let t2 := (S0 + maj) % M64
    ((t1 + t2) % M64, a, b, c, (d + t1) % M64, e, f, g)
  let (a0, b0, c0, d0, e0, f0, g0, h0) := st
  let (a, b, c, d, e, f, g, h) := (List.range 80).foldl step st
  ((a0 + a) % M64, (b0 + b) % M64, (c0 + c) % M64, (d0 + d) % M64,
   (e0 + e) % M64, (f0 + f) % M64, (g0 + g) % M64, (h0 + h) % M64)

def sha512Pad (msg : Bytes) : Bytes :=
  msg ++ [128] ++ List.replicate (padZeros msg.length 128 16) 0 ++ beBytes 16 (8 * msg.length)

def sha512Core (iv : St8) (msg : Bytes) : Bytes :=
  let blocks := (chunksOf 128 (sha512Pad msg)).map (fun b => (chunksOf 8 b).map beWord)
  let (a, b, c, d, e, f, g, h) := blocks.foldl sha512Block iv
  beBytes 8 a ++ beBytes 8 b ++ beBytes 8 c ++ beBytes 8 d ++
  beBytes 8 e ++ beBytes 8 f ++ beBytes 8 g ++ beBytes 8 h

/-- SHA-512 digest (64 bytes). -/
def sha512 (msg : Bytes) : Bytes :=
  sha512Core
    (7640891576956012808, 13503953896175478587, 4354685564936845355, 11912009170470909681,
     5840696475078001361, 11170449401992604703, 2270897969802886507, 6620516959819538809) msg

/-- SHA-384 digest (48 bytes): the SHA-512/384 truncated construction
(Go `sha512.New384`). -/
def sha384 (msg : Bytes) : Bytes :=
  (sha512Core
    (14680500436340154072, 7105036623409894663, 10473403895298186519, 1526699215303891257,
     7436329637833083697, 10282925794625328401, 15784041429090275239, 5167115440072839076)
    msg).take 48

/-! ## HMAC (RFC 2104; Go `crypto/hmac`) -/

/-- HMAC over hash `h` with block size `blockSize`.  Keys longer than a block
are first hashed, exactly as Go `hmac.New` does. -/
def hmac (h : Bytes → Bytes) (blockSize : Nat) (key msg : Bytes) : Bytes :=
  let k0 := if blockSize < key.length then h key else key
  let kp := k0 ++ List.replicate (blockSize - k0.length) 0
  h ((kp.map (fun b => b ^^^ 92)) ++ h ((kp.map (fun b => b ^^^ 54)) ++ msg))

/-! ## Hex encoding and UTF-8 bytes of a string -/

def hexDigitChar (n : Nat) : Char := if n < 10 then Char.ofNat (48 + n) else Char.ofNat (87 + n)

/-- Lowercase hex encoding of a byte list (Go `hex.EncodeToString`). -/
def hexEncode (bs : Bytes) : String :=
  String.mk (bs.foldr (fun b acc => hexDigitChar (b / 16) :: hexDigitChar (b % 16) :: acc) [])

/-- UTF-8 encoding of a character. -/
def utf8Char (c : Char) : Bytes :=
  let n := c.toNat
  if n < 0x80 then [n]
  else if n < 0x800 then [0xc0 ||| (n >>> 6), 0x80 ||| (n &&& 0x3f)]
  else if n < 0x10000 then
    [0xe0 ||| (n >>> 12), 0x80 ||| ((n >>> 6) &&& 0x3f), 0x80 ||| (n &&& 0x3f)]
  else
    [0xf0 ||| (n >>> 18), 0x80 ||| ((n >>> 12) &&& 0x3f),
     0x80 ||| ((n >>> 6) &&& 0x3f), 0x80 ||| (n &&& 0x3f)]

/-- The bytes of a string (Go `[]byte(s)`: UTF-8). -/
def strBytes (s : String) : Bytes := s.data.foldr (fun c acc => utf8Char c ++ acc) []

/-! ## Small pieces of the Go standard library used by the client -/

def digitVal (c : Char) : Option Nat :=
  if '0' ≤ c ∧ c ≤ '9' then some (c.toNat - 48) else none

def digitsVal (cs : List Char) : Option Nat :=
  match cs with
  | [] => none
  | _ =>
    cs.foldl (fun acc c => match acc, digitVal c with
      | some n, some d => some (10 * n + d)
      | _, _ => none) (some 0)

/-- Go `strconv.Atoi`: optional sign followed by one or more decimal digits;
anything else is an error (`none`).  Overflow of the machine `int` is not
modelled; the values appearing in the protocol are far below it. -/
def atoi (s : String) : Option Int :=
  match s.data with
  | '+' :: cs => (digitsVal cs).map (fun n => (n : Int))
  | '-' :: cs => (digitsVal cs).map (fun n => -(n : Int))
  | cs => (digitsVal cs).map (fun n => (n : Int))

/-- ASCII case folding of a character (uppercase letters to lowercase). -/
def foldChar (c : Char) : Char :=
  if 'A' ≤ c ∧ c ≤ 'Z' then Char.ofNat (c.toNat + 32) else c

/-- Go `strings.EqualFold`, restricted to ASCII folding; the strings compared
in this client are hex digests, where the two coincide. -/
def eqFold (a b : String) : Bool := a.data.map foldChar == b.data.map foldChar

/-- Go `strings.Split` with a one-character separator, over char lists.
Splitting the empty string yields `[[]]`, as in Go. -/
def splitChars (sep : Char) : List Char → List (List Char)
  | [] => [[]]
  | c :: rest =>
    if c = sep then [] :: splitChars sep rest
    else
      match splitChars sep rest with
      | t :: ts => (c :: t) :: ts
      | [] => [[c]]

/-- Go `strings.Split(s, sep)` for a one-character `sep` (the only uses in
this client are `"/"` and `"="`). -/
def splitGo (sep : Char) (s : String) : List String :=
  (splitChars sep s.data).map (fun l => String.mk l)

/-! ## Data model: subscriptions and the registry

`subscription.handler` (a Go function value) is not stored in the record;
handler invocation is modelled as an explicit dispatch event carrying the
subscription's id.  Times and durations are integers in nanoseconds, as in
Go's `time.Time`/`time.Duration`; the zero `time.Time` is the integer 0. -/

structure Subscription where
  hub : String
  topic : String
  secret : String
  id : Int
  lease : Int
  verifiedAt : Int
deriving DecidableEq, Repr

/-- `subscription.SecretKey`: `hex(HMAC-SHA1(key=secret, message=topic))`. -/
def Subscription.SecretKey (s : Subscription) : String :=
  hexEncode (hmac sha1 64 (strBytes s.secret) (strBytes s.topic))

/-- The subscription registry: Go's `map[string]*subscription`, keyed by
topic.  Keys are unique; `List.lookup` finds the (single) entry. -/
abbrev Registry := List (String × Subscription)

/-- Replace the record stored under topic `t` (pointer mutation of the map
entry in the Go code). -/
def setTopic (r : Registry) (t : String) (s : Subscription) : Registry :=
  r.map (fun p => if p.1 = t then (t, s) else p)

/-- `Client.Subscribe`: insert (or overwrite) the record for a topic, with a
fresh id from the process-wide counter; lease and verifiedAt start at their
zero values.  Returns the new registry and counter.  The outbound request
made when the client is running is issued by `makeSubscriptionRequest`. -/
def Subscribe (r : Registry) (hub topic secret : String) (idCounter : Int) :
    Registry × Int :=
  let s : Subscription := ⟨hub, topic, secret, idCounter, 0, 0⟩
  (if (List.lookup topic r).isSome then setTopic r topic s else r ++ [(topic, s)],
   idCounter + 1)

/-- `Client.Unsubscribe`: optimistically delete the registry entry; when the
client is running, also issue the outbound unsubscribe request (returned as
the subscription it targets).  A missing topic only logs. -/
def Unsubscribe (r : Registry) (topic : String) (running : Bool) :
    Registry × Option Subscription :=
  match List.lookup topic r with
  | some s => (r.filter (fun p => p.1 ≠ topic), if running then some s else none)
  | none => (r, none)

/-! ## Renewal scan (`ensureSubscribed`) and outbound requests -/

def nsSecond : Int := 1000000000
def nsHour : Int := 3600000000000

/-- `formatCallbackURL`. -/
def formatCallbackURL (self : String) (id : Int) : String :=
  self ++ "/push-callback/" ++ toString id

/-- The form body of `makeSubscriptionRequest` (POSTed to `s.hub`): the
`hub.secret` parameter is included only when a secret is configured. -/
def makeSubscriptionRequest (self : String) (s : Subscription) : List (String × String) :=
  [("hub.callback", formatCallbackURL self s.id),
   ("hub.topic", s.topic),
   ("hub.mode", "subscribe")] ++
  (if 0 < (strBytes s.secret).length then [("hub.secret", s.SecretKey)] else [])

/-- The renewal condition of one `ensureSubscribed` iteration:
`expireTime.Before(oneHourAgo)` with `expireTime = verifiedAt + lease` and
`oneHourAgo = now - 1h`. -/
def needsRenewal (now : Int) (s : Subscription) : Bool :=
  decide (s.verifiedAt + s.lease < now - nsHour)

/-- One tick of `ensureSubscribed`: walk the registry and issue a subscribe
request for every record whose lease expired more than an hour ago.  Returns
the outbound requests issued during the tick. -/
def ensureSubscribed (self : String) (r : Registry) (now : Int) :
    List (List (String × String)) :=
  match r with
  | [] => []
  | p :: rest =>
    if needsRenewal now p.2 then
      makeSubscriptionRequest self p.2 :: ensureSubscribed self rest now
    else ensureSubscribed self rest now

/-! ## The HTTP response writer (Go `net/http`)

`Write` commits the header: if no status has been written yet it writes
status 200 first, even for an empty slice.  A later `WriteHeader` on an
already-committed response is superfluous and changes nothing.  `http.Error`
is `WriteHeader(code)` followed by `Fprintln` of the message. -/

structure Response where
  status : Option Nat
  body : String
deriving DecidableEq, Repr

def Response.start : Response := ⟨none, ""⟩

def Response.write (r : Response) (s : String) : Response :=
  ⟨some (r.status.getD 200), r.body ++ s⟩

def Response.writeHeader (r : Response) (c : Nat) : Response :=
  ⟨some (r.status.getD c), r.body⟩

def httpError (r : Response) (msg : String) (code : Nat) : Response :=
  (r.writeHeader code).write (msg ++ "\n")

/-! ## The callback handler -/

/-- An inbound callback request, after the body has been fully read:
URL path, parsed query parameters, the two headers the handler consults,
and the raw body. -/
structure Request where
  path : String
  query : List (String × String)
  xHubSignature : String
  contentType : String
  body : Bytes
deriving DecidableEq, Repr

/-- `url.Values.Get`: first value for the key, or `""` when absent. -/
def getParam (q : List (String × String)) (k : String) : String :=
  (List.lookup k q).getD ""

/-- `subscriptionForPath`: split the URL path on `/`, require exactly three
parts, parse the last as the subscription id, and find a record with that id. -/
def subscriptionForPath (r : Registry) (path : String) : Option Subscription :=
  let parts := splitGo '/' path
  if parts.length = 3 then
    match atoi (parts.getD 2 "") with
    | some id => (r.map Prod.snd).find? (fun s => decide (s.id = id))
    | none => none
  else none

/-- The hash constructor selected for an `x-hub-signature` algorithm token,
with its HMAC block size (Go `hash.Hash.BlockSize`): 64 for sha1/sha256,
128 for sha384/sha512. -/
def hashAlgOf (alg : String) : Option ((Bytes → Bytes) × Nat) :=
  if alg = "sha1" then some (sha1, 64)
  else if alg = "sha256" then some (sha256, 64)
  else if alg = "sha384" then some (sha384, 128)
  else if alg = "sha512" then some (sha512, 128)
  else none

/-- The outcome of `handleCallback`: the response written, the registry after
the call, and the update dispatched to `broadcast` (subscription id,
Content-Type, raw body), if any. -/
structure CallbackResult where
  resp : Response
  subs : Registry
  dispatch : Option (Int × String × Bytes)
deriving DecidableEq, Repr

/-- `handleCallback`, the inbound state machine, switching on `hub.mode`.
Note that in the update branch the code writes an empty response body (which
commits status 200) before any signature validation. -/
def handleCallback (r : Registry) (now : Int) (req : Request) : CallbackResult :=
  let params := req.query
  let topic := getParam params "hub.topic"
  let mode := getParam params "hub.mode"
  if mode = "subscribe" then
    match List.lookup topic r with
    | some s =>
      let s1 : Subscription := { s with verifiedAt := now }
      let s2 : Subscription :=
        match atoi (getParam params "hub.lease_seconds") with
        | some n => { s1 with lease := nsSecond * n }
        | none => s1
      { resp := Response.start.write (getParam params "hub.challenge"),
        subs := setTopic r topic s2, dispatch := none }
    | none =>
      { resp := httpError Response.start "Unexpected subscription" 400,
        subs := r, dispatch := none }
  else if mode = "unsubscribe" then
    match List.lookup topic r with
    | none =>
      { resp := Response.start.write (getParam params "hub.challenge"),
        subs := r, dispatch := none }
    | some _ =>
      { resp := httpError Response.start "Unexpected unsubscribe" 400,
        subs := r, dispatch := none }
  else if mode = "denied" then
    { resp := Response.start.write "", subs := r, dispatch := none }
  else
    match subscriptionForPath r req.path with
    | none =>
      { resp := httpError Response.start "Unknown subscription" 400,
        subs := r, dispatch := none }
    | some s =>
      let r1 := Response.start.write ""
      if 0 < (strBytes s.secret).length then
        let signature := splitGo '=' req.xHubSignature
        if signature.length ≠ 2 then
          { resp := httpError r1 "Invalid Subscription" 400, subs := r, dispatch := none }
        else
          match hashAlgOf (signature.getD 0 "") with
          | none =>
            { resp := httpError r1 "Invalid Signature" 400, subs := r, dispatch := none }
          | some fb =>
            let sum := hexEncode (hmac fb.1 fb.2 (strBytes s.SecretKey) req.body)
            if eqFold (signature.getD 1 "") sum then
              { resp := r1, subs := r, dispatch := some (s.id, req.contentType, req.body) }
            else
              { resp := httpError r1 "Invalid Signature" 400, subs := r, dispatch := none }
      else
        { resp := r1, subs := r, dispatch := some (s.id, req.contentType, req.body) }

/-! ## Deduplication ring buffer and `broadcast`

`container/ring`, 50 slots, all initially `nil`.  The list is kept rotated
so that its head is the node the client's `history` pointer addresses;
writing the current node and advancing is therefore dropping the head and
appending at the end. -/

structure History where
  entries : List (Option Bytes)
deriving DecidableEq, Repr

/-- `ring.New(50)` as created by `NewClient`. -/
def initHistory : History := ⟨List.replicate 50 none⟩

/-- The value `broadcast` stores and compares: `md5.New().Sum(body)`, i.e.
the body with the MD5 digest of the empty message appended (Go's `Sum`
appends the digest of the data written so far — nothing — to its argument). -/
def dedupHash (body : Bytes) : Bytes := body ++ md5 []

/-- The `ring.Do` scan of `broadcast`: is the value held in some slot?
(Slots still holding their initial `nil` fail the `[]byte` type assertion.) -/
def hasEntry (h : History) (v : Bytes) : Bool :=
  h.entries.any (fun e => e == some v)

/-- `broadcast`: dedup-check the body and, when unique, record it and invoke
the subscription handler.  Returns the new history and whether the handler
was invoked. -/
def broadcast (h : History) (body : Bytes) : History × Bool :=
  let hv := dedupHash body
  if hasEntry h hv then (h, false)
  else (⟨h.entries.tail ++ [some hv]⟩, true)

/-- Sequential delivery of several update bodies through `broadcast`. -/
def deliverList (h : History) (l : List Bytes) : History :=
  l.foldl (fun h b => (broadcast h b).1) h

/-! ## Helper lemmas about the registry -/

theorem lookup_setTopic (r : Registry) (t : String) (v : Subscription) :
    List.lookup t (setTopic r t v) = (List.lookup t r).map (fun _ => v) := by
  induction r with
  | nil => rfl
  | cons p rest ih =>
    obtain ⟨k, s⟩ := p
    by_cases h : k = t
    · subst h
      simp [setTopic, List.lookup_cons]
    · have ih2 := ih
      simp only [setTopic] at ih2
      simp [setTopic, List.lookup_cons, if_neg h, beq_false_of_ne (Ne.symm h), ih2]

theorem lookup_filter_self (r : Registry) (t : String) :
    List.lookup t (r.filter (fun p => p.1 ≠ t)) = none := by
  simp
  exact fun a b _ hne => Ne.symm hne

/-! ## Claims -/

/-- C1: for a topic with a registry entry, a `subscribe`-mode callback whose
`hub.lease_seconds` parses as an integer responds 200 with body exactly
`hub.challenge`, sets the record's `verifiedAt` to now and its lease to
`hub.lease_seconds` seconds, and dispatches nothing. -/
theorem subscribe_callback_verifies (r : Registry) (now : Int) (req : Request)
    (s : Subscription) (n : Int)
    (hmode : getParam req.query "hub.mode" = "subscribe")
    (hs : List.lookup (getParam req.query "hub.topic") r = some s)
    (hlease : atoi (getParam req.query "hub.lease_seconds") = some n) :
    (handleCallback r now req).resp = ⟨some 200, getParam req.query "hub.challenge"⟩ ∧
    List.lookup (getParam req.query "hub.topic") (handleCallback r now req).subs =
      some { s with verifiedAt := now, lease := nsSecond * n } ∧
    (handleCallback r now req).dispatch = none := by
  simp only [handleCallback, hmode, if_pos, hs, hlease]
  refine ⟨by simp [Response.write, Response.start], ?_, trivial⟩
  rw [lookup_setTopic, hs]
  rfl

/-- Closed instance of C1: a concrete verified subscribe callback. -/
theorem subscribe_callback_verifies_witness :
    (getParam [("hub.mode", "subscribe"), ("hub.topic", "t"), ("hub.challenge", "ch"),
       ("hub.lease_seconds", "60")] "hub.mode" = "subscribe" ∧
     List.lookup (getParam [("hub.mode", "subscribe"), ("hub.topic", "t"),
       ("hub.challenge", "ch"), ("hub.lease_seconds", "60")] "hub.topic")
       [("t", (⟨"hub", "t", "", 5, 0, 0⟩ : Subscription))] =
       some ⟨"hub", "t", "", 5, 0, 0⟩ ∧
     atoi (getParam [("hub.mode", "subscribe"), ("hub.topic", "t"), ("hub.challenge", "ch"),
       ("hub.lease_seconds", "60")] "hub.lease_seconds") = some 60) ∧
    ((handleCallback [("t", ⟨"hub", "t", "", 5, 0, 0⟩)] 100
        ⟨"/cb", [("hub.mode", "subscribe"), ("hub.topic", "t"), ("hub.challenge", "ch"),
          ("hub.lease_seconds", "60")], "", "", []⟩).resp =
      ⟨some 200, getParam [("hub.mode", "subscribe"), ("hub.topic", "t"),
        ("hub.challenge", "ch"), ("hub.lease_seconds", "60")] "hub.challenge"⟩ ∧
     List.lookup (getParam [("hub.mode", "subscribe"), ("hub.topic", "t"),
        ("hub.challenge", "ch"), ("hub.lease_seconds", "60")] "hub.topic")
       (handleCallback [("t", ⟨"hub", "t", "", 5, 0, 0⟩)] 100
        ⟨"/cb", [("hub.mode", "subscribe"), ("hub.topic", "t"), ("hub.challenge", "ch"),
          ("hub.lease_seconds", "60")], "", "", []⟩).subs =
       some { (⟨"hub", "t", "", 5, 0, 0⟩ : Subscription) with
                verifiedAt := 100, lease := nsSecond * 60 } ∧
     (handleCallback [("t", ⟨"hub", "t", "", 5, 0, 0⟩)] 100
        ⟨"/cb", [("hub.mode", "subscribe"), ("hub.topic", "t"), ("hub.challenge", "ch"),
          ("hub.lease_seconds", "60")], "", "", []⟩).dispatch = none) :=
  ⟨⟨by decide, by decide, by decide⟩,
   subscribe_callback_verifies _ 100
     ⟨"/cb", [("hub.mode", "subscribe"), ("hub.topic", "t"), ("hub.challenge", "ch"),
       ("hub.lease_seconds", "60")], "", "", []⟩
     ⟨"hub", "t", "", 5, 0, 0⟩ 60 (by decide) (by decide) (by decide)⟩

/-- C8: a `subscribe`-mode callback for a topic with no registry entry
responds 400 with the reason "Unexpected subscription" and mutates nothing. -/
theorem subscribe_callback_unknown_topic (r : Registry) (now : Int) (req : Request)
    (hmode : getParam req.query "hub.mode" = "subscribe")
    (hs : List.lookup (getParam req.query "hub.topic") r = none) :
    handleCallback r now req =
      ⟨⟨some 400, "Unexpected subscription\n"⟩, r, none⟩ := by
  simp only [handleCallback, hmode, if_pos, hs]
  simp [httpError, Response.writeHeader, Response.write, Response.start]

/-- Closed instance of C8. -/
theorem subscribe_callback_unknown_topic_witness :
    (getParam [("hub.mode", "subscribe"), ("hub.topic", "nope")] "hub.mode" = "subscribe" ∧
     List.lookup (getParam [("hub.mode", "subscribe"), ("hub.topic", "nope")] "hub.topic")
       [("t", (⟨"hub", "t", "", 5, 0, 0⟩ : Subscription))] = none) ∧
    handleCallback [("t", ⟨"hub", "t", "", 5, 0, 0⟩)] 100
      ⟨"/cb", [("hub.mode", "subscribe"), ("hub.topic", "nope")], "", "", []⟩ =
      ⟨⟨some 400, "Unexpected subscription\n"⟩,
       [("t", ⟨"hub", "t", "", 5, 0, 0⟩)], none⟩ :=
  ⟨⟨by decide, by decide⟩,
   subscribe_callback_unknown_topic _ 100
     ⟨"/cb", [("hub.mode", "subscribe"), ("hub.topic", "nope")], "", "", []⟩
     (by decide) (by decide)⟩

/-- C10: a `subscribe`-mode callback for a registered topic whose
`hub.lease_seconds` is absent or fails integer parsing still sets
`verifiedAt` to now, leaves the lease unchanged, and echoes the challenge
with status 200. -/
theorem subscribe_callback_invalid_lease (r : Registry) (now : Int) (req : Request)
    (s : Subscription)
    (hmode : getParam req.query "hub.mode" = "subscribe")
    (hs : List.lookup (getParam req.query "hub.topic") r = some s)
    (hlease : atoi (getParam req.query "hub.lease_seconds") = none) :
    (handleCallback r now req).resp = ⟨some 200, getParam req.query "hub.challenge"⟩ ∧
    List.lookup (getParam req.query "hub.topic") (handleCallback r now req).subs =
      some { s with verifiedAt := now } ∧
    (handleCallback r now req).dispatch = none := by
  simp only [handleCallback, hmode, if_pos, hs, hlease]
  refine ⟨by simp [Response.write, Response.start], ?_, trivial⟩
  rw [lookup_setTopic, hs]
  rfl

/-- Closed instance of C10: `hub.lease_seconds` absent (so the parameter
reads as `""`, which fails to parse); the lease stays at its prior value. -/
theorem subscribe_callback_invalid_lease_witness :
    (getParam [("hub.mode", "subscribe"), ("hub.topic", "t"), ("hub.challenge", "ch")]
       "hub.mode" = "subscribe" ∧
     List.lookup (getParam [("hub.mode", "subscribe"), ("hub.topic", "t"),
       ("hub.challenge", "ch")] "hub.topic")
       [("t", (⟨"hub", "t", "", 5, 77, 3⟩ : Subscription))] =
       some ⟨"hub", "t", "", 5, 77, 3⟩ ∧
     atoi (getParam [("hub.mode", "subscribe"), ("hub.topic", "t"), ("hub.challenge", "ch")]
       "hub.lease_seconds") = none) ∧
    ((handleCallback [("t", ⟨"hub", "t", "", 5, 77, 3⟩)] 100
        ⟨"/cb", [("hub.mode", "subscribe"), ("hub.topic", "t"), ("hub.challenge", "ch")],
          "", "", []⟩).resp =
      ⟨some 200, getParam [("hub.mode", "subscribe"), ("hub.topic", "t"),
        ("hub.challenge", "ch")] "hub.challenge"⟩ ∧
     List.lookup (getParam [("hub.mode", "subscribe"), ("hub.topic", "t"),
        ("hub.challenge", "ch")] "hub.topic")
       (handleCallback [("t", ⟨"hub", "t", "", 5, 77, 3⟩)] 100
        ⟨"/cb", [("hub.mode", "subscribe"), ("hub.topic", "t"), ("hub.challenge", "ch")],
          "", "", []⟩).subs =
       some { (⟨"hub", "t", "", 5, 77, 3⟩ : Subscription) with verifiedAt := 100 } ∧
     (handleCallback [("t", ⟨"hub", "t", "", 5, 77, 3⟩)] 100
        ⟨"/cb", [("hub.mode", "subscribe"), ("hub.topic", "t"), ("hub.challenge", "ch")],
          "", "", []⟩).dispatch = none) :=
  ⟨⟨by decide, by decide, by decide⟩,
   subscribe_callback_invalid_lease _ 100
     ⟨"/cb", [("hub.mode", "subscribe"), ("hub.topic", "t"), ("hub.challenge", "ch")],
       "", "", []⟩
     ⟨"hub", "t", "", 5, 77, 3⟩ (by decide) (by decide) (by decide)⟩

/-- C5: unsubscribing a registered topic removes its registry entry at once
(before and regardless of hub confirmation); an `unsubscribe`-mode callback
for the removed topic then echoes the challenge with 200, while one for a
topic still present responds 400 "Unexpected unsubscribe". -/
theorem unsubscribe_optimistic_removal (r : Registry) (topic : String) (running : Bool)
    (s s2 : Subscription) (now : Int) (req req2 : Request)
    (hs : List.lookup topic r = some s)
    (hmode : getParam req.query "hub.mode" = "unsubscribe")
    (htop : getParam req.query "hub.topic" = topic)
    (hmode2 : getParam req2.query "hub.mode" = "unsubscribe")
    (hpresent : List.lookup (getParam req2.query "hub.topic") r = some s2) :
    List.lookup topic (Unsubscribe r topic running).1 = none ∧
    (handleCallback (Unsubscribe r topic running).1 now req).resp =
      ⟨some 200, getParam req.query "hub.challenge"⟩ ∧
    handleCallback r now req2 = ⟨⟨some 400, "Unexpected unsubscribe\n"⟩, r, none⟩ := by
  have h1 : (Unsubscribe r topic running).1 = r.filter (fun p => p.1 ≠ topic) := by
    simp [Unsubscribe, hs]
  have h2 : List.lookup topic (Unsubscribe r topic running).1 = none := by
    rw [h1]
    exact lookup_filter_self r topic
  have h3 : List.lookup (getParam req.query "hub.topic")
      (Unsubscribe r topic running).1 = none := by
    rw [htop]
    exact h2
  refine ⟨h2, ?_, ?_⟩
  · simp only [handleCallback, hmode, h3]
    simp [Response.write, Response.start]
  · simp only [handleCallback, hmode2, hpresent]
    simp [httpError, Response.writeHeader, Response.write, Response.start]

/-- Closed instance of C5: registry with topics "a" and "b"; unsubscribe "a";
the callback for "a" succeeds, the one for "b" (still present) fails. -/
theorem unsubscribe_optimistic_removal_witness :
    (List.lookup "a" [("a", (⟨"h", "a", "", 1, 0, 0⟩ : Subscription)),
       ("b", (⟨"h", "b", "", 2, 0, 0⟩ : Subscription))] = some ⟨"h", "a", "", 1, 0, 0⟩ ∧
     getParam [("hub.mode", "unsubscribe"), ("hub.topic", "a"), ("hub.challenge", "bye")]
       "hub.mode" = "unsubscribe" ∧
     getParam [("hub.mode", "unsubscribe"), ("hub.topic", "a"), ("hub.challenge", "bye")]
       "hub.topic" = "a" ∧
     getParam [("hub.mode", "unsubscribe"), ("hub.topic", "b")] "hub.mode" = "unsubscribe" ∧
     List.lookup (getParam [("hub.mode", "unsubscribe"), ("hub.topic", "b")] "hub.topic")
       [("a", (⟨"h", "a", "", 1, 0, 0⟩ : Subscription)),
        ("b", (⟨"h", "b", "", 2, 0, 0⟩ : Subscription))] = some ⟨"h", "b", "", 2, 0, 0⟩) ∧
    (List.lookup "a" (Unsubscribe [("a", ⟨"h", "a", "", 1, 0, 0⟩),
       ("b", ⟨"h", "b", "", 2, 0, 0⟩)] "a" false).1 = none ∧
     (handleCallback (Unsubscribe [("a", ⟨"h", "a", "", 1, 0, 0⟩),
        ("b", ⟨"h", "b", "", 2, 0, 0⟩)] "a" false).1 9
       ⟨"/cb", [("hub.mode", "unsubscribe"), ("hub.topic", "a"), ("hub.challenge", "bye")],
         "", "", []⟩).resp =
       ⟨some 200, getParam [("hub.mode", "unsubscribe"), ("hub.topic", "a"),
         ("hub.challenge", "bye")] "hub.challenge"⟩ ∧
     handleCallback [("a", ⟨"h", "a", "", 1, 0, 0⟩), ("b", ⟨"h", "b", "", 2, 0, 0⟩)] 9
       ⟨"/cb", [("hub.mode", "unsubscribe"), ("hub.topic", "b")], "", "", []⟩ =
       ⟨⟨some 400, "Unexpected unsubscribe\n"⟩,
        [("a", ⟨"h", "a", "", 1, 0, 0⟩), ("b", ⟨"h", "b", "", 2, 0, 0⟩)], none⟩) :=
  ⟨⟨by decide, by decide, by decide, by decide, by decide⟩,
   unsubscribe_optimistic_removal
     [("a", ⟨"h", "a", "", 1, 0, 0⟩), ("b", ⟨"h", "b", "", 2, 0, 0⟩)] "a" false
     ⟨"h", "a", "", 1, 0, 0⟩ ⟨"h", "b", "", 2, 0, 0⟩ 9
     ⟨"/cb", [("hub.mode", "unsubscribe"), ("hub.topic", "a"), ("hub.challenge", "bye")],
       "", "", []⟩
     ⟨"/cb", [("hub.mode", "unsubscribe"), ("hub.topic", "b")], "", "", []⟩
     (by decide) (by decide) (by decide) (by decide) (by decide)⟩

/-- C4: one renewal tick issues exactly the subscribe requests of the
records whose `verifiedAt + lease` lies more than one hour before now;
a never-verified record (both fields zero) qualifies whenever more than an
hour has passed since the zero time, and a record within the one-hour grace
window never does. -/
theorem renewal_scan_characterization (self : String) (r : Registry) (now : Int) :
    ensureSubscribed self r now =
      (r.filter (fun p => needsRenewal now p.2)).map
        (fun p => makeSubscriptionRequest self p.2) ∧
    (∀ s : Subscription, s.verifiedAt = 0 → s.lease = 0 → nsHour < now →
      needsRenewal now s = true) ∧
    (∀ s : Subscription, now - nsHour ≤ s.verifiedAt + s.lease →
      needsRenewal now s = false) := by
  refine ⟨?_, ?_, ?_⟩
  · induction r with
    | nil => rfl
    | cons p rest ih =>
      by_cases h : needsRenewal now p.2 = true
      · simp [ensureSubscribed, h, List.filter_cons, ih]
      · simp [ensureSubscribed, h, List.filter_cons, ih]
  · intro s h1 h2 h3
    simp only [needsRenewal, nsHour, h1, h2, decide_eq_true_eq] at h3 ⊢
    omega
  · intro s h
    simp only [needsRenewal, nsHour, decide_eq_false_iff_not, not_lt] at h ⊢
    omega

/-- Closed instance of C4: a tick over a fresh record two hours past the
zero time; plus the two boundary facts at concrete records. -/
theorem renewal_scan_characterization_witness :
    ensureSubscribed "http://app" [("t", ⟨"hub", "t", "", 1, 0, 0⟩)] 7200000000000 =
      ([("t", (⟨"hub", "t", "", 1, 0, 0⟩ : Subscription))].filter
          (fun p => needsRenewal 7200000000000 p.2)).map
        (fun p => makeSubscriptionRequest "http://app" p.2) ∧
    needsRenewal 7200000000000 ⟨"hub", "t", "", 1, 0, 0⟩ = true ∧
    needsRenewal 7200000000000 ⟨"hub", "t", "", 9, 3600000000000, 1⟩ = false :=
  ⟨(renewal_scan_characterization "http://app" [("t", ⟨"hub", "t", "", 1, 0, 0⟩)]
      7200000000000).1,
   (renewal_scan_characterization "http://app" [] 7200000000000).2.1
     ⟨"hub", "t", "", 1, 0, 0⟩ rfl rfl (by decide),
   (renewal_scan_characterization "http://app" [] 7200000000000).2.2
     ⟨"hub", "t", "", 9, 3600000000000, 1⟩ (by decide)⟩

/-- C7: the derived verification key is `hex(HMAC-SHA1(key=secret,
message=topic))`; derivation depends only on the secret and topic (so it is
deterministic), and there is a pair of subscriptions with equal secrets and
distinct topics whose derived keys differ. -/
theorem secretKey_derivation (s t : Subscription)
    (hsec : s.secret = t.secret) (htop : s.topic = t.topic) :
    Subscription.SecretKey s =
      hexEncode (hmac sha1 64 (strBytes s.secret) (strBytes s.topic)) ∧
    Subscription.SecretKey s = Subscription.SecretKey t ∧
    ∃ u v : Subscription, u.secret = v.secret ∧ u.topic ≠ v.topic ∧
      Subscription.SecretKey u ≠ Subscription.SecretKey v := by
  refine ⟨rfl, ?_, ?_⟩
  · simp [Subscription.SecretKey, hsec, htop]
  · exact ⟨⟨"", "topicA", "sec", 0, 0, 0⟩, ⟨"", "topicB", "sec", 0, 0, 0⟩,
      rfl, by decide, by decide⟩

/-- Closed instance of C7 at one concrete subscription. -/
theorem secretKey_derivation_witness :
    ((⟨"h", "top", "sec", 0, 0, 0⟩ : Subscription).secret =
       (⟨"h", "top", "sec", 0, 0, 0⟩ : Subscription).secret ∧
     (⟨"h", "top", "sec", 0, 0, 0⟩ : Subscription).topic =
       (⟨"h", "top", "sec", 0, 0, 0⟩ : Subscription).topic) ∧
    (Subscription.SecretKey ⟨"h", "top", "sec", 0, 0, 0⟩ =
       hexEncode (hmac sha1 64
         (strBytes (⟨"h", "top", "sec", 0, 0, 0⟩ : Subscription).secret)
         (strBytes (⟨"h", "top", "sec", 0, 0, 0⟩ : Subscription).topic)) ∧
     Subscription.SecretKey ⟨"h", "top", "sec", 0, 0, 0⟩ =
       Subscription.SecretKey ⟨"h", "top", "sec", 0, 0, 0⟩ ∧
     ∃ u v : Subscription, u.secret = v.secret ∧ u.topic ≠ v.topic ∧
       Subscription.SecretKey u ≠ Subscription.SecretKey v) :=
  ⟨⟨rfl, rfl⟩, secretKey_derivation ⟨"h", "top", "sec", 0, 0, 0⟩
    ⟨"h", "top", "sec", 0, 0, 0⟩ rfl rfl⟩

/-- C9 counterexample: the value `broadcast` inserts into the dedup cache is
not of constant length — for the empty body it is 16 bytes long, for a
one-byte body 17 bytes. -/
theorem dedup_entry_not_fixed_size_cex :
    (broadcast initHistory []).1.entries.getLast? = some (some (dedupHash [])) ∧
    (broadcast initHistory [0]).1.entries.getLast? = some (some (dedupHash [0])) ∧
    (dedupHash []).length = 16 ∧ (dedupHash [0]).length = 17 := by decide

/-- C9 amended: every entry stored in the dedup cache is the raw message
body with the 16-byte MD5 digest of the empty message appended
(`md5.New().Sum(body)` appends the digest of nothing to `body`), so its
length is the body's length plus 16, not a constant. -/
theorem dedup_entry_is_body_plus_md5suffix (body : Bytes) :
    dedupHash body = body ++ md5 [] ∧
    (dedupHash body).length = body.length + 16 := by
  refine ⟨rfl, ?_⟩
  have h16 : (md5 ([] : Bytes)).length = 16 := by decide
  simp [dedupHash, h16]

/-- C2 exhibit: for an update callback with a configured secret, a
well-formed `x-hub-signature` header with a recognized algorithm whose hex
digest does not match (case-insensitively) the computed HMAC is not
dispatched — but the response has status 200, not 400: the handler already
wrote an empty 200 body before validating, so the later
`http.Error(..., 400)` can only append "Invalid Signature" to the body. -/
theorem update_signature_mismatch_status (r : Registry) (now : Int) (req : Request)
    (s : Subscription) (f : Bytes → Bytes) (bsz : Nat) (alg digest : String)
    (hmode : getParam req.query "hub.mode" = "")
    (hpath : subscriptionForPath r req.path = some s)
    (hsec : 0 < (strBytes s.secret).length)
    (hsig : splitGo '=' req.xHubSignature = [alg, digest])
    (halg : hashAlgOf alg = some (f, bsz))
    (hne : eqFold digest (hexEncode (hmac f bsz (strBytes s.SecretKey) req.body)) = false) :
    handleCallback r now req = ⟨⟨some 200, "Invalid Signature\n"⟩, r, none⟩ := by
  simp [handleCallback, hmode, hpath, hsig, halg, hsec, hne,
    httpError, Response.writeHeader, Response.write, Response.start]

/-- Closed instance of the C2 exhibit: a concrete sha256-signed callback
with a wrong digest is rejected without dispatch, at status 200. -/
theorem update_signature_mismatch_status_witness :
    (getParam ([] : List (String × String)) "hub.mode" = "" ∧
     subscriptionForPath [("t", ⟨"hub", "t", "sec", 5, 0, 0⟩)] "/push-callback/5" =
       some ⟨"hub", "t", "sec", 5, 0, 0⟩ ∧
     0 < (strBytes (⟨"hub", "t", "sec", 5, 0, 0⟩ : Subscription).secret).length ∧
     splitGo '=' "sha256=00" = ["sha256", "00"] ∧
     hashAlgOf "sha256" = some (sha256, 64) ∧
     eqFold "00" (hexEncode (hmac sha256 64
       (strBytes (Subscription.SecretKey ⟨"hub", "t", "sec", 5, 0, 0⟩)) [1, 2])) = false) ∧
    handleCallback [("t", ⟨"hub", "t", "sec", 5, 0, 0⟩)] 9
      ⟨"/push-callback/5", [], "sha256=00", "ct", [1, 2]⟩ =
      ⟨⟨some 200, "Invalid Signature\n"⟩, [("t", ⟨"hub", "t", "sec", 5, 0, 0⟩)], none⟩ :=
  ⟨⟨rfl, by decide, by decide, by decide, rfl, by decide⟩,
   update_signature_mismatch_status [("t", ⟨"hub", "t", "sec", 5, 0, 0⟩)] 9
     ⟨"/push-callback/5", [], "sha256=00", "ct", [1, 2]⟩
     ⟨"hub", "t", "sec", 5, 0, 0⟩ sha256 64 "sha256" "00"
     rfl (by decide) (by decide) (by decide) rfl (by decide)⟩

/-- C6 exhibit: with a configured secret, a malformed `x-hub-signature`
header (not exactly two `=`-separated parts) or an unrecognized algorithm
token is rejected without dispatch, with reason "Invalid Subscription"
respectively "Invalid Signature" — but at status 200, not 400, because an
empty 200 body was already written before validation. -/
theorem update_signature_malformed_or_unknown_alg (r : Registry) (now : Int)
    (req1 req2 : Request) (s1 s2 : Subscription) (alg digest : String)
    (hmode1 : getParam req1.query "hub.mode" = "")
    (hpath1 : subscriptionForPath r req1.path = some s1)
    (hsec1 : 0 < (strBytes s1.secret).length)
    (hmal : (splitGo '=' req1.xHubSignature).length ≠ 2)
    (hmode2 : getParam req2.query "hub.mode" = "")
    (hpath2 : subscriptionForPath r req2.path = some s2)
    (hsec2 : 0 < (strBytes s2.secret).length)
    (hsig2 : splitGo '=' req2.xHubSignature = [alg, digest])
    (halg2 : hashAlgOf alg = none) :
    handleCallback r now req1 = ⟨⟨some 200, "Invalid Subscription\n"⟩, r, none⟩ ∧
    handleCallback r now req2 = ⟨⟨some 200, "Invalid Signature\n"⟩, r, none⟩ := by
  constructor
  · simp [handleCallback, hmode1, hpath1, hsec1, hmal,
      httpError, Response.writeHeader, Response.write, Response.start]
  · simp [handleCallback, hmode2, hpath2, hsec2, hsig2, halg2,
      httpError, Response.writeHeader, Response.write, Response.start]

/-- Closed instance of the C6 exhibit: header "deadbeef" (malformed) and
header "md5=00" (unknown algorithm). -/
theorem update_signature_malformed_or_unknown_alg_witness :
    (getParam ([] : List (String × String)) "hub.mode" = "" ∧
     subscriptionForPath [("t", ⟨"hub", "t", "sec", 5, 0, 0⟩)] "/push-callback/5" =
       some ⟨"hub", "t", "sec", 5, 0, 0⟩ ∧
     0 < (strBytes (⟨"hub", "t", "sec", 5, 0, 0⟩ : Subscription).secret).length ∧
     (splitGo '=' "deadbeef").length ≠ 2 ∧
     splitGo '=' "md5=00" = ["md5", "00"] ∧
     hashAlgOf "md5" = none) ∧
    (handleCallback [("t", ⟨"hub", "t", "sec", 5, 0, 0⟩)] 9
       ⟨"/push-callback/5", [], "deadbeef", "ct", [1, 2]⟩ =
       ⟨⟨some 200, "Invalid Subscription\n"⟩, [("t", ⟨"hub", "t", "sec", 5, 0, 0⟩)], none⟩ ∧
     handleCallback [("t", ⟨"hub", "t", "sec", 5, 0, 0⟩)] 9
       ⟨"/push-callback/5", [], "md5=00", "ct", [1, 2]⟩ =
       ⟨⟨some 200, "Invalid Signature\n"⟩, [("t", ⟨"hub", "t", "sec", 5, 0, 0⟩)], none⟩) :=
  ⟨⟨rfl, by decide, by decide, by decide, by decide, rfl⟩,
   update_signature_malformed_or_unknown_alg [("t", ⟨"hub", "t", "sec", 5, 0, 0⟩)] 9
     ⟨"/push-callback/5", [], "deadbeef", "ct", [1, 2]⟩
     ⟨"/push-callback/5", [], "md5=00", "ct", [1, 2]⟩
     ⟨"hub", "t", "sec", 5, 0, 0⟩ ⟨"hub", "t", "sec", 5, 0, 0⟩ "md5" "00"
     rfl (by decide) (by decide) (by decide) rfl (by decide) (by decide) (by decide) rfl⟩

/-! ## Lemmas about the dedup ring -/

theorem dedupHash_inj {a b : Bytes} (h : dedupHash a = dedupHash b) : a = b :=
  List.append_cancel_right h

theorem hasEntry_eq_false_iff {es : List (Option Bytes)} {v : Bytes} :
    hasEntry ⟨es⟩ v = false ↔ ∀ e ∈ es, e ≠ some v := by
  simp [hasEntry, List.any_eq_false]

/-- After delivering a list of bodies whose digests are pairwise distinct
and none of which is already cached, the ring holds the last 50 of the
initial slots followed by the new digests, in order. -/
theorem deliverList_entries (bs : List Bytes) :
    ∀ es : List (Option Bytes), es ≠ [] →
    (∀ b ∈ bs, ∀ e ∈ es, e ≠ some (dedupHash b)) →
    bs.Pairwise (fun a b => dedupHash a ≠ dedupHash b) →
    (deliverList ⟨es⟩ bs).entries =
      (es ++ bs.map (fun b => some (dedupHash b))).drop bs.length := by
  induction bs with
  | nil =>
    intro es hne hni hpw
    simp [deliverList]
  | cons b rest ih =>
    intro es hne hni hpw
    have hfalse : hasEntry ⟨es⟩ (dedupHash b) = false := by
      rw [hasEntry_eq_false_iff]
      intro e he
      exact hni b (List.mem_cons_self _ _) e he
    have hstep : deliverList ⟨es⟩ (b :: rest) =
        deliverList ⟨es.tail ++ [some (dedupHash b)]⟩ rest := by
      simp [deliverList, broadcast, hfalse]
    obtain ⟨e0, es', rfl⟩ : ∃ e0 es', es = e0 :: es' := by
      cases es with
      | nil => exact absurd rfl hne
      | cons e0 es' => exact ⟨e0, es', rfl⟩
    rw [hstep]
    have hni' : ∀ b' ∈ rest, ∀ e ∈ es' ++ [some (dedupHash b)],
        e ≠ some (dedupHash b') := by
      intro b' hb' e he
      rcases List.mem_append.mp he with h1 | h1
      · exact hni b' (List.mem_cons_of_mem _ hb') e (List.mem_cons_of_mem _ h1)
      · rw [List.mem_singleton.mp h1]
        intro hcontra
        have heads : dedupHash b = dedupHash b' := by injection hcontra
        exact (List.rel_of_pairwise_cons hpw hb') heads
    have hrec := ih (es' ++ [some (dedupHash b)]) (by simp) hni' (List.Pairwise.of_cons hpw)
    simp only [List.tail_cons]
    rw [hrec]
    simp [List.append_assoc, List.singleton_append, List.length_cons,
      List.drop_succ_cons, List.map_cons, List.cons_append]

/-- C3: from a fresh client, delivering the same body twice invokes the
handler exactly once (first delivery yes, repeat no); and after delivering
51 pairwise-distinct bodies (one more than the 50-slot cache), the first
body's digest has been evicted, so delivering it again invokes the handler
again. -/
theorem dedup_once_and_eviction (b b0 : Bytes) (rest : List Bytes)
    (hlen : (b0 :: rest).length = 51)
    (hnd : (b0 :: rest).Pairwise (· ≠ ·)) :
    ((broadcast initHistory b).2 = true ∧
     (broadcast (broadcast initHistory b).1 b).2 = false) ∧
    (hasEntry (deliverList initHistory (b0 :: rest)) (dedupHash b0) = false ∧
     (broadcast (deliverList initHistory (b0 :: rest)) b0).2 = true) := by
  have hfresh : ∀ v : Bytes, hasEntry initHistory v = false := by
    intro v
    rw [show initHistory = ⟨List.replicate 50 none⟩ from rfl, hasEntry_eq_false_iff]
    intro e he
    rw [List.eq_of_mem_replicate he]
    simp
  constructor
  · constructor
    · simp [broadcast, hfresh (dedupHash b)]
    · have h1 : (broadcast initHistory b).1 =
          ⟨initHistory.entries.tail ++ [some (dedupHash b)]⟩ := by
        simp [broadcast, hfresh (dedupHash b)]
      have h2 : hasEntry ⟨initHistory.entries.tail ++
          [some (dedupHash b)]⟩ (dedupHash b) = true := by
        simp [hasEntry]
      rw [h1]
      simp [broadcast, h2]
  · have hrest : rest.length = 50 := by simpa using hlen
    have hpwh : (b0 :: rest).Pairwise (fun x y => dedupHash x ≠ dedupHash y) :=
      hnd.imp (fun hne heq => hne (dedupHash_inj heq))
    have hni : ∀ x ∈ (b0 :: rest), ∀ e ∈ List.replicate 50 (none : Option Bytes),
        e ≠ some (dedupHash x) := by
      intro x hx e he
      rw [List.eq_of_mem_replicate he]
      simp
    have hmain := deliverList_entries (b0 :: rest) (List.replicate 50 none)
      (by simp) hni hpwh
    have hEq : (deliverList initHistory (b0 :: rest)).entries =
        rest.map (fun x => some (dedupHash x)) := by
      rw [show initHistory = ⟨List.replicate 50 none⟩ from rfl, hmain,
        List.map_cons, List.length_cons, hrest]
      have hsplit : List.replicate 50 (none : Option Bytes) ++
          (some (dedupHash b0) :: rest.map (fun x => some (dedupHash x))) =
          (List.replicate 50 (none : Option Bytes) ++ [some (dedupHash b0)]) ++
            rest.map (fun x => some (dedupHash x)) := by
        simp
      rw [hsplit]
      have h51 : (50 + 1 : Nat) = (List.replicate 50 (none : Option Bytes) ++
          [some (dedupHash b0)]).length + 0 := by simp
      rw [h51, List.drop_append]
      simp
    have hout : hasEntry (deliverList initHistory (b0 :: rest)) (dedupHash b0) = false := by
      have : (deliverList initHistory (b0 :: rest)) =
          ⟨rest.map (fun x => some (dedupHash x))⟩ := by
        cases hd : deliverList initHistory (b0 :: rest) with
        | mk es => exact congrArg History.mk (by simpa [hd] using hEq)
      rw [this, hasEntry_eq_false_iff]
      intro e he
      obtain ⟨x, hx, rfl⟩ := List.mem_map.mp he
      intro hcontra
      have heads : dedupHash x = dedupHash b0 := by injection hcontra
      exact (List.rel_of_pairwise_cons hpwh hx) heads.symm
    exact ⟨hout, by simp [broadcast, hout]⟩

/-- Closed instance of C3: body `[7]` delivered twice from a fresh client,
and the 51 distinct one-byte bodies `[0]`, `[1]`, …, `[50]`. -/
theorem dedup_once_and_eviction_witness :
    (([0] :: (List.range 50).map (fun i => [i + 1])).length = 51 ∧
     ([0] :: (List.range 50).map (fun i => [i + 1])).Pairwise
       (fun a b => a ≠ b) ∧
     (broadcast initHistory [7]).2 = true ∧
     (broadcast (broadcast initHistory [7]).1 [7]).2 = false) ∧
    (hasEntry (deliverList initHistory ([0] :: (List.range 50).map (fun i => [i + 1])))
       (dedupHash [0]) = false ∧
     (broadcast (deliverList initHistory ([0] :: (List.range 50).map (fun i => [i + 1])))
       [0]).2 = true) :=
  ⟨⟨by decide, by decide,
    (dedup_once_and_eviction [7] [0] ((List.range 50).map (fun i => [i + 1]))
      (by decide) (by decide)).1.1,
    (dedup_once_and_eviction [7] [0] ((List.range 50).map (fun i => [i + 1]))
      (by decide) (by decide)).1.2⟩,
   (dedup_once_and_eviction [7] [0] ((List.range 50).map (fun i => [i + 1]))
      (by decide) (by decide)).2⟩

end Gohubbub
